import Mathlib

/-!
Verification development for the realtime relay server (`realtime_server.py`).

The file shallowly embeds, in order:

* `AudioProcessor.process_audio_chunk` (the media transcoder).  The call to
  the third-party `scipy.signal.resample_poly(float_data, 24000, 48000)` is
  library code outside this repository; it is abstracted as a `Resampler`,
  a function on exact rationals together with the documented output-length
  contract of `resample_poly` (length `ceil (n * up / down)` with the ratio
  `24000 / 48000` reduced to `1 / 2`, i.e. `(n + 1) / 2` in natural division).
  Sample values are modelled over `ℚ`; the final conversion
  `(x * 32768.0).clip(-32768, 32767).astype(np.int16)` is scaling, clamping
  and truncation toward zero, exactly as numpy performs it.

* the per-connection session of `websocket_endpoint`: its closure variables
  become the fields of a `SessionState` record, and the bodies of
  `receive_messages`, `handle_text_delta`, `handle_response_done`,
  `handle_response_created`, `handle_error` and `send_audio_messages`
  become step functions on that record, driven by a list of events.  The
  inbound loop processes one message at a time, so one `InMsg` is one atomic
  step whose parameters carry the outcomes of the awaits inside it (the
  upstream send, the connect attempt, the bounded drain wait); upstream
  events dispatched by the event listener are separate steps.

All definitions are translated from `src/realtime_server.py`; the comments
cite its line numbers.
-/

namespace Brainwave

/-! ### Media transcoder (`AudioProcessor`, lines 147-168) -/

/-- Signed 16-bit value of a little-endian byte pair, as
`np.frombuffer(audio_data, dtype=np.int16)` decodes it. -/
def int16OfBytes (lo hi : ℕ) : ℤ :=
  let u : ℤ := ((lo % 256 : ℕ) : ℤ) + 256 * ((hi % 256 : ℕ) : ℤ)
  if u < 32768 then u else u - 65536

/-- Consecutive little-endian byte pairs decoded as int16 samples. -/
def pairsToInt16 : List ℕ → List ℤ
  | lo :: hi :: rest => int16OfBytes lo hi :: pairsToInt16 rest
  | _ => []

/-- Model of `np.frombuffer(audio_data, dtype=np.int16)`: numpy raises
`ValueError` (buffer size must be a multiple of element size) when the
buffer length is not a multiple of 2, and never truncates; the raising
outcome is `none`. -/
def frombufferInt16 (b : List ℕ) : Option (List ℤ) :=
  if b.length % 2 = 0 then some (pairsToInt16 b) else none

/-- Model of `pcm_data.astype(np.float32) / 32768.0` on one sample, over
exact rationals. -/
def int16ToFloat (v : ℤ) : ℚ := (v : ℚ) / 32768

/-- Truncation toward zero, which is how numpy `astype(np.int16)` converts
floating-point values in range. -/
def truncToward0 (x : ℚ) : ℤ := if 0 ≤ x then ⌊x⌋ else ⌈x⌉

/-- Model of `(resampled_data * 32768.0).clip(-32768, 32767).astype(np.int16)`
on one sample: scale, clamp into the signed 16-bit interval, convert. -/
def scaleClipToInt16 (x : ℚ) : ℤ :=
  truncToward0 (max (-32768) (min 32767 (x * 32768)))

/-- Abstraction of `scipy.signal.resample_poly(x, 24000, 48000)`.  The
polyphase filter itself is third-party code outside the repository; the
field `len_eq` records its documented output-length contract:
`ceil (n * up / down)` where `up / down` is reduced to `1 / 2`, which is
`(n + 1) / 2` in natural-number division. -/
structure Resampler where
  f : List ℚ → List ℚ
  len_eq : ∀ l, (f l).length = (l.length + 1) / 2

/-- `AudioProcessor.process_audio_chunk` (lines 152-168), returning the list
of output samples (`resampled_int16` just before `tobytes`); a raised
exception is modelled as `Except.error` with the numpy message. -/
def process_audio_chunk (r : Resampler) (audio_data : List ℕ) :
    Except String (List ℤ) :=
  match frombufferInt16 audio_data with
  | none => .error "buffer size must be a multiple of element size"
  | some pcm_data =>
      let float_data := pcm_data.map int16ToFloat
      let resampled_data := r.f float_data
      .ok (resampled_data.map scaleClipToInt16)

/-- A concrete resampling function (keep every other sample), used only to
build an executable `Resampler` for witnesses; it satisfies the
output-length contract of `resample_poly`. -/
def decim2 : List ℚ → List ℚ
  | x :: _ :: rest => x :: decim2 rest
  | l => l

/-- A concrete executable resampler for witnesses. -/
def demoResampler : Resampler where
  f := decim2
  len_eq := by
    intro l
    induction l using decim2.induct with
    | case1 x y rest ih =>
        simp only [decim2, List.length_cons, ih]
        omega
    | case2 l h =>
        cases l with
        | nil => rfl
        | cons a t =>
            cases t with
            | nil => simp [decim2]
            | cons b t2 => simp at h

/-! ### Session state (`websocket_endpoint`, lines 178-472) -/

/-- Outbound frames sent to the browser client over the websocket. -/
inductive OutFrame
  | status (s : String)
  | text (content : String) (isNewResponse : Bool)
  | error (content : String)
  deriving DecidableEq

/-- Truthiness of `complete_transcript.strip()` in Python: the stripped
string is non-empty exactly when some character is not whitespace.  The
latter form is used because it is directly computable. -/
def hasContent (t : String) : Bool := t.data.any (fun c => !c.isWhitespace)

/-- The closure variables of `websocket_endpoint` (lines 190-204, 310),
plus the observation traces needed to state the claims: audio frames
forwarded upstream, the in-flight count observed at each
`client.commit_audio()` call, `client.start_response` calls, spawned
`create_notion_note_from_transcript` tasks, `client.close` calls, frames
sent to the browser client, `logger.error` calls, and whether the
`receive_messages` loop is still running. -/
structure SessionState where
  client : Bool
  openai_ready : Bool
  pending_audio_chunks : List (List ℤ)
  pending_audio_operations : ℕ
  all_audio_sent : Bool
  recording_stopped : Bool
  complete_transcript : String
  audio_buffer : List (List ℤ)
  audio_queue : List (Option (List ℤ))
  sent_frames : List (List ℤ)
  commits_at : List ℕ
  responses_started : ℕ
  notion_tasks : ℕ
  client_closes : ℕ
  out_frames : List OutFrame
  errors_logged : ℕ
  loop_alive : Bool
  deriving DecidableEq

/-- Session state right after `websocket.accept()` and the initial idle
status frame (lines 181-200): no client, gates clear, `all_audio_sent`
set, empty backlog, empty queue, empty transcript. -/
def initialState : SessionState where
  client := false
  openai_ready := false
  pending_audio_chunks := []
  pending_audio_operations := 0
  all_audio_sent := true
  recording_stopped := false
  complete_transcript := ""
  audio_buffer := []
  audio_queue := []
  sent_frames := []
  commits_at := []
  responses_started := 0
  notion_tasks := 0
  client_closes := 0
  out_frames := [OutFrame.status "idle"]
  errors_logged := 0
  loop_alive := true

/-- `handle_text_delta` (lines 248-265): accumulate a non-empty delta into
the shared transcript, then forward a continuation text frame. -/
def handle_text_delta (s : SessionState) (delta : String) : SessionState :=
  let s1 := if delta ≠ "" then
      { s with complete_transcript := s.complete_transcript ++ delta }
    else s
  { s1 with out_frames := s1.out_frames ++ [OutFrame.text delta false] }

/-- `handle_response_created` (lines 267-273): forward an empty
new-response text frame; the transcript is not touched. -/
def handle_response_created (s : SessionState) : SessionState :=
  { s with out_frames := s.out_frames ++ [OutFrame.text "" true] }

/-- `handle_error` (lines 275-282): log the upstream error and forward its
message verbatim. -/
def handle_error (s : SessionState) (msg : String) : SessionState :=
  { s with errors_logged := s.errors_logged + 1,
           out_frames := s.out_frames ++ [OutFrame.error msg] }

/-- `handle_response_done` (lines 284-304); `autoCreate` is the
`NOTION_AUTO_CREATE` configuration flag.  Set `recording_stopped`; when the
stripped transcript is non-empty and auto-create is on, spawn a Notion
hand-off task (`asyncio.create_task`); then, when a client is live, close
it, reset `client` and `openai_ready`, and emit an idle status frame.
Nothing guards against a repeated invocation, and the transcript is not
cleared here. -/
def handle_response_done (autoCreate : Bool) (s : SessionState) : SessionState :=
  let s1 := { s with recording_stopped := true }
  let s2 := if hasContent s1.complete_transcript && autoCreate then
      { s1 with notion_tasks := s1.notion_tasks + 1 }
    else s1
  if s2.client then
    { s2 with client_closes := s2.client_closes + 1,
              client := false,
              openai_ready := false,
              out_frames := s2.out_frames ++ [OutFrame.status "idle"] }
  else s2

/-- Outcome of one `await client.send_audio(...)` call. -/
inductive SendOutcome | ok | fail
  deriving DecidableEq

/-- Outcome of `asyncio.wait_for(all_audio_sent.wait(), timeout=5.0)`
(lines 397-405): the drain event was observed set within 5 seconds, or the
wait timed out. -/
inductive DrainOutcome | drained | timedOut
  deriving DecidableEq

/-- The `finally` block of an audio send (lines 345-350 and 383-387):
decrement `pending_audio_operations` under the lock and set
`all_audio_sent` when the count reaches zero. -/
def finallyRelease (s : SessionState) : SessionState :=
  let p := s.pending_audio_operations - 1
  { s with pending_audio_operations := p,
           all_audio_sent := if p = 0 then true else s.all_audio_sent }

/-- One iteration of the backlog flush loop in the `start_recording` branch
(lines 375-387): take an in-flight slot, clear the drain event, send the
chunk, release the slot in `finally`. -/
def sendBufferedChunk (s : SessionState) (chunk : List ℤ) : SessionState :=
  let s1 := { s with
      pending_audio_operations := s.pending_audio_operations + 1,
      all_audio_sent := false }
  let s2 := { s1 with sent_frames := s1.sent_frames ++ [chunk] }
  finallyRelease s2

/-- The binary-frame branch of `receive_messages` (lines 326-352), together
with the enclosing try/except (lines 424-426): process the chunk; while
`openai_ready` is clear, append it to the backlog; with a ready client,
take an in-flight slot, attempt the send, and release the slot in
`finally`.  A raised exception — a chunk of unaligned length from
`np.frombuffer`, or a failed `client.send_audio` propagating out of the
try/finally — is caught by the generic handler at line 424, which logs the
error and breaks the loop.  With no client it only logs a warning. -/
def onAudioFrame (r : Resampler) (frame : List ℕ) (send : SendOutcome)
    (s : SessionState) : SessionState :=
  match process_audio_chunk r frame with
  | .error _ =>
      { s with errors_logged := s.errors_logged + 1, loop_alive := false }
  | .ok processed =>
      if s.openai_ready = false then
        { s with pending_audio_chunks := s.pending_audio_chunks ++ [processed] }
      else if s.client then
        let s1 := { s with
            pending_audio_operations := s.pending_audio_operations + 1,
            all_audio_sent := false }
        match send with
        | .ok =>
            let s2 := { s1 with
                sent_frames := s1.sent_frames ++ [processed],
                out_frames := s1.out_frames ++ [OutFrame.status "connected"] }
            finallyRelease s2
        | .fail =>
            let s2 := finallyRelease s1
            { s2 with errors_logged := s2.errors_logged + 1, loop_alive := false }
      else s

/-- The `start_recording` branch of `receive_messages` (lines 357-388).

Python scoping note: the reset `complete_transcript = ""` at line 359 is an
assignment inside `receive_messages`, whose only `nonlocal` declarations
are for `client` and `pending_audio_operations`; the assignment therefore
binds a variable local to `receive_messages`, and the shared
`complete_transcript` of `websocket_endpoint` — the accumulator read by
`handle_text_delta` and `handle_response_done` — is left unchanged.  The
embedding accordingly does not touch `complete_transcript` here.

`initialize_openai()` (lines 206-245) assigns the client object before
`await client.connect()`, so on a connect failure the `client` variable is
left holding an unconnected object (non-None): the failure branch keeps
`client := true`, clears `openai_ready`, logs the error and emits an error
frame, and the loop continues.

On success the handlers are registered, `openai_ready` is set and a
connected status frame is emitted; then `recording_stopped.clear()` and
`pending_audio_chunks.clear()` run (lines 369-370), and only afterwards
comes the `if pending_audio_chunks and client:` flush block (lines
373-388), which therefore always sees an empty backlog. -/
def onStartRecording (ok : Bool) (s : SessionState) : SessionState :=
  let s0 := { s with out_frames := s.out_frames ++ [OutFrame.status "connecting"] }
  if ok then
    let s1 := { s0 with
        client := true
        openai_ready := true
        out_frames := s0.out_frames ++ [OutFrame.status "connected"] }
    let s2 := { s1 with recording_stopped := false }
    let s3 := { s2 with pending_audio_chunks := [] }
    if s3.pending_audio_chunks ≠ [] ∧ s3.client = true then
      let s4 := s3.pending_audio_chunks.foldl sendBufferedChunk s3
      { s4 with pending_audio_chunks := [] }
    else s3
  else
    { s0 with
        client := true
        openai_ready := false
        errors_logged := s0.errors_logged + 1
        out_frames := s0.out_frames ++
          [OutFrame.error "Failed to initialize OpenAI connection"] }

/-- The `stop_recording` branch of `receive_messages` (lines 390-419): a
no-op without a live client.  Otherwise wait on the drain event up to 5
seconds; on timeout, forcibly reset `pending_audio_operations` to zero and
set the event (lines 400-405); then call `client.commit_audio()` (the
in-flight count at that moment is recorded in `commits_at`), request a
response, await `recording_stopped`, and emit a connected status frame.
In-flight completions are accounted inside the audio steps, so the state
here is the state observed when the drain wait returns. -/
def onStopRecording (drain : DrainOutcome) (s : SessionState) : SessionState :=
  if s.client then
    let s1 := match drain with
      | .drained => s
      | .timedOut =>
          { s with pending_audio_operations := 0, all_audio_sent := true }
    { s1 with
        commits_at := s1.commits_at ++ [s1.pending_audio_operations],
        responses_started := s1.responses_started + 1,
        out_frames := s1.out_frames ++ [OutFrame.status "connected"] }
  else s

/-- One inbound websocket message, as destructured by `receive_messages`:
a binary audio frame (with the outcome of the upstream send attempt), a
`start_recording` command (with the outcome of `initialize_openai()`), or
a `stop_recording` command (with the outcome of the bounded drain wait). -/
inductive InMsg
  | audio (frame : List ℕ) (send : SendOutcome)
  | startRecording (ok : Bool)
  | stopRecording (drain : DrainOutcome)

/-- One inbound message processed by the `receive_messages` loop (lines
312-435); once the loop has exited, nothing further is processed. -/
def receiveMessage (r : Resampler) (s : SessionState) (m : InMsg) :
    SessionState :=
  if s.loop_alive then
    match m with
    | .audio frame send => onAudioFrame r frame send s
    | .startRecording ok => onStartRecording ok s
    | .stopRecording drain => onStopRecording drain s
  else s

/-- A session event: an inbound client message handled by
`receive_messages`, or an upstream event dispatched to its registered
handler (lines 217-230); unrecognized names go to `handle_generic_event`,
which only logs. -/
inductive Ev
  | inbound (m : InMsg)
  | textDelta (delta : String)
  | responseCreated
  | responseDone
  | upstreamError (msg : String)
  | genericEvent

/-- Dispatch one session event. -/
def stepEv (r : Resampler) (autoCreate : Bool) (s : SessionState) (e : Ev) :
    SessionState :=
  match e with
  | .inbound m => receiveMessage r s m
  | .textDelta d => handle_text_delta s d
  | .responseCreated => handle_response_created s
  | .responseDone => handle_response_done autoCreate s
  | .upstreamError msg => handle_error s msg
  | .genericEvent => s

/-- Run a session from the freshly-accepted state over a list of events. -/
def runSession (r : Resampler) (autoCreate : Bool) (evs : List Ev) :
    SessionState :=
  evs.foldl (stepEv r autoCreate) initialState

/-- One iteration of the `send_audio_messages` loop (lines 437-460):
`await audio_queue.get()` cannot return while the queue is empty (`none`:
the task is blocked, forwards nothing, and cannot reach its normal exit);
a dequeued `None` sentinel breaks the loop (normal termination); an empty
chunk is skipped; otherwise the chunk is appended to `audio_buffer` and
sent upstream. -/
def sendAudioMessagesStep (s : SessionState) : Option SessionState :=
  match s.audio_queue with
  | [] => none
  | Option.none :: rest =>
      some { s with audio_queue := rest, recording_stopped := true }
  | Option.some chunk :: rest =>
      if chunk.length = 0 then some { s with audio_queue := rest }
      else
        some { s with
          audio_queue := rest
          audio_buffer := s.audio_buffer ++ [chunk]
          sent_frames := s.sent_frames ++ [chunk] }

/-- A session state with a live, ready upstream client and everything else
as at accept time; used by witnesses. -/
def readyState : SessionState :=
  { initialState with client := true, openai_ready := true }

/-- `readyState` with a non-empty accumulated transcript; used by
witnesses. -/
def readyStateHi : SessionState :=
  { readyState with complete_transcript := "hi" }

/-- The drain-gate invariant: the `all_audio_sent` event is set only when
the in-flight count is zero.  The code maintains it under
`audio_send_lock`: the event is cleared whenever a slot is taken and set
exactly when the count returns to zero. -/
def drainGateOk (s : SessionState) : Prop :=
  s.all_audio_sent = true → s.pending_audio_operations = 0

/-! ### Supporting lemmas -/

theorem pairsToInt16_length : ∀ b : List ℕ, (pairsToInt16 b).length = b.length / 2
  | [] => rfl
  | [_] => by simp [pairsToInt16]
  | _ :: _ :: rest => by
      have ih := pairsToInt16_length rest
      simp only [pairsToInt16, List.length_cons, ih]
      omega

theorem truncToward0_bounds (lo hi : ℤ) (x : ℚ) (hlo : (lo : ℚ) ≤ x)
    (hhi : x ≤ (hi : ℚ)) : lo ≤ truncToward0 x ∧ truncToward0 x ≤ hi := by
  unfold truncToward0
  by_cases h0 : 0 ≤ x
  · rw [if_pos h0]
    exact ⟨Int.le_floor.mpr hlo, by exact_mod_cast (Int.floor_le x).trans hhi⟩
  · rw [if_neg h0]
    exact ⟨by exact_mod_cast hlo.trans (Int.le_ceil x), Int.ceil_le.mpr hhi⟩

theorem scaleClipToInt16_bounds (x : ℚ) :
    -32768 ≤ scaleClipToInt16 x ∧ scaleClipToInt16 x ≤ 32767 := by
  unfold scaleClipToInt16
  refine truncToward0_bounds (-32768) 32767 _ ?_ ?_
  · push_cast
    exact le_max_left _ _
  · push_cast
    exact max_le (by norm_num) (min_le_left _ _)

/-! ### Claim theorems: media transcoder -/

/-- C7: every sample returned by `process_audio_chunk` lies in the signed
16-bit range `[-32768, 32767]`, because the scaled output is clamped to
that range before conversion back to 16-bit integers. -/
theorem process_audio_chunk_samples_in_int16_range
    (r : Resampler) (b : List ℕ) (out : List ℤ)
    (hout : process_audio_chunk r b = Except.ok out) :
    ∀ s ∈ out, -32768 ≤ s ∧ s ≤ 32767 := by
  intro s hs
  cases hfb : frombufferInt16 b with
  | none => simp [process_audio_chunk, hfb] at hout
  | some pcm =>
      simp only [process_audio_chunk, hfb, Except.ok.injEq] at hout
      subst hout
      obtain ⟨y, _, rfl⟩ := List.mem_map.mp hs
      exact scaleClipToInt16_bounds y

theorem pac_eval_255_127 :
    process_audio_chunk demoResampler [255, 127] = Except.ok [32767] := by
  norm_num [process_audio_chunk, frombufferInt16, pairsToInt16, int16OfBytes,
    int16ToFloat, demoResampler, decim2, scaleClipToInt16, truncToward0]

/-- Witness for C7 at the concrete input `[255, 127]` (one sample, value
32767), with the concrete executable resampler. -/
theorem process_audio_chunk_range_witness :
    -32768 ≤ (32767 : ℤ) ∧ (32767 : ℤ) ≤ 32767 :=
  process_audio_chunk_samples_in_int16_range demoResampler [255, 127] [32767]
    pac_eval_255_127 32767 (by simp)

/-- C8: on an aligned input of `2 * n` bytes (`n` samples), the output
sample count is within one of `n / 2 = ⌊n * 24000 / 48000⌋`, and an empty
input yields an empty output. -/
theorem process_audio_chunk_output_length
    (r : Resampler) (b : List ℕ) (n : ℕ) (out : List ℤ)
    (hn : b.length = 2 * n) (hout : process_audio_chunk r b = Except.ok out) :
    n / 2 ≤ out.length ∧ out.length ≤ n / 2 + 1 ∧ (b = [] → out = []) := by
  have hmod : b.length % 2 = 0 := by omega
  have hfb : frombufferInt16 b = some (pairsToInt16 b) := by
    unfold frombufferInt16
    rw [if_pos hmod]
  simp only [process_audio_chunk, hfb, Except.ok.injEq] at hout
  subst hout
  have hlen : ((r.f ((pairsToInt16 b).map int16ToFloat)).map scaleClipToInt16).length
      = (n + 1) / 2 := by
    rw [List.length_map, r.len_eq, List.length_map, pairsToInt16_length, hn]
    omega
  refine ⟨by rw [hlen]; omega, by rw [hlen]; omega, fun hb => ?_⟩
  rw [← List.length_eq_zero, hlen]
  subst hb
  simp at hn
  omega

theorem pac_eval_0010 :
    process_audio_chunk demoResampler [0, 0, 1, 0] = Except.ok [0] := by
  norm_num [process_audio_chunk, frombufferInt16, pairsToInt16, int16OfBytes,
    int16ToFloat, demoResampler, decim2, scaleClipToInt16, truncToward0]

/-- Witness for C8 at the concrete 4-byte input `[0, 0, 1, 0]` (samples
`[0, 1]`, so `n = 2`), with the concrete executable resampler. -/
theorem process_audio_chunk_length_witness :
    2 / 2 ≤ ([(0 : ℤ)]).length ∧ ([(0 : ℤ)]).length ≤ 2 / 2 + 1 ∧
      (([0, 0, 1, 0] : List ℕ) = [] → ([(0 : ℤ)]) = []) :=
  process_audio_chunk_output_length demoResampler [0, 0, 1, 0] 2 [0]
    (by rfl) pac_eval_0010

/-- C6 counterexample: on the 1-byte input `[0]` (length not a multiple of
the 2-byte sample width) `process_audio_chunk` raises the numpy
`ValueError` instead of truncating and proceeding. -/
theorem process_audio_chunk_odd_raises_cex :
    process_audio_chunk demoResampler [0] =
      Except.error "buffer size must be a multiple of element size" := rfl

/-- C6 amended: for every input whose byte length is not a multiple of 2,
`process_audio_chunk` raises (the `ValueError` from `np.frombuffer`); it
does not truncate to the aligned prefix. -/
theorem process_audio_chunk_odd_raises (r : Resampler) (b : List ℕ)
    (h : b.length % 2 ≠ 0) :
    process_audio_chunk r b =
      Except.error "buffer size must be a multiple of element size" := by
  unfold process_audio_chunk frombufferInt16
  rw [if_neg h]

/-- Witness for the amended C6 at the concrete input `[0]`. -/
theorem process_audio_chunk_odd_raises_witness :
    process_audio_chunk demoResampler [0] =
      Except.error "buffer size must be a multiple of element size" :=
  process_audio_chunk_odd_raises demoResampler [0] (by decide)

/-! ### Supporting lemmas: the session queue and the drain gate -/

theorem onAudioFrame_audio_queue (r : Resampler) (frame : List ℕ)
    (send : SendOutcome) (s : SessionState) :
    (onAudioFrame r frame send s).audio_queue = s.audio_queue := by
  unfold onAudioFrame
  cases process_audio_chunk r frame with
  | error e => rfl
  | ok processed =>
      dsimp only
      split
      · rfl
      · split
        · cases send <;> rfl
        · rfl

theorem onStartRecording_audio_queue (ok : Bool) (s : SessionState) :
    (onStartRecording ok s).audio_queue = s.audio_queue := by
  unfold onStartRecording
  dsimp only
  split
  · split <;> rfl
  · rfl

theorem onStopRecording_audio_queue (d : DrainOutcome) (s : SessionState) :
    (onStopRecording d s).audio_queue = s.audio_queue := by
  unfold onStopRecording
  split
  · cases d <;> rfl
  · rfl

theorem stepEv_audio_queue (r : Resampler) (ac : Bool) (s : SessionState)
    (e : Ev) : (stepEv r ac s e).audio_queue = s.audio_queue := by
  cases e with
  | inbound m =>
      dsimp only [stepEv, receiveMessage]
      split
      · cases m with
        | audio frame send => exact onAudioFrame_audio_queue r frame send s
        | startRecording ok => exact onStartRecording_audio_queue ok s
        | stopRecording d => exact onStopRecording_audio_queue d s
      · rfl
  | textDelta d =>
      dsimp only [stepEv, handle_text_delta]
      split <;> rfl
  | responseCreated => rfl
  | responseDone =>
      dsimp only [stepEv, handle_response_done]
      split <;> split <;> rfl
  | upstreamError msg => rfl
  | genericEvent => rfl

theorem foldl_stepEv_audio_queue (r : Resampler) (ac : Bool) :
    ∀ (evs : List Ev) (s : SessionState),
      (evs.foldl (stepEv r ac) s).audio_queue = s.audio_queue
  | [], _ => rfl
  | e :: rest, s => by
      rw [List.foldl_cons, foldl_stepEv_audio_queue r ac rest,
        stepEv_audio_queue]

theorem finallyRelease_gate (s : SessionState) (h : drainGateOk s) :
    drainGateOk (finallyRelease s) := by
  unfold drainGateOk finallyRelease
  dsimp only
  split
  · intro _
    assumption
  · intro hg
    have h0 := h hg
    omega

theorem onAudioFrame_gate (r : Resampler) (frame : List ℕ)
    (send : SendOutcome) (s : SessionState) (h : drainGateOk s) :
    drainGateOk (onAudioFrame r frame send s) := by
  unfold onAudioFrame
  cases process_audio_chunk r frame with
  | error e => exact h
  | ok processed =>
      dsimp only
      split
      · exact h
      · split
        · cases send with
          | ok =>
              apply finallyRelease_gate
              intro hg
              simp at hg
          | fail =>
              have h2 : drainGateOk (finallyRelease
                  { s with
                    pending_audio_operations := s.pending_audio_operations + 1
                    all_audio_sent := false }) := by
                apply finallyRelease_gate
                intro hg
                simp at hg
              exact h2
        · exact h

theorem onStartRecording_gate (ok : Bool) (s : SessionState)
    (h : drainGateOk s) : drainGateOk (onStartRecording ok s) := by
  unfold onStartRecording
  dsimp only
  split
  · split
    · exact h
    · exact h
  · exact h

theorem onStopRecording_gate (d : DrainOutcome) (s : SessionState)
    (h : drainGateOk s) : drainGateOk (onStopRecording d s) := by
  unfold onStopRecording
  split
  · cases d with
    | drained => exact h
    | timedOut => exact fun _ => rfl
  · exact h

theorem stepEv_gate (r : Resampler) (ac : Bool) (s : SessionState) (e : Ev)
    (h : drainGateOk s) : drainGateOk (stepEv r ac s e) := by
  cases e with
  | inbound m =>
      dsimp only [stepEv, receiveMessage]
      split
      · cases m with
        | audio frame send => exact onAudioFrame_gate r frame send s h
        | startRecording ok => exact onStartRecording_gate ok s h
        | stopRecording d => exact onStopRecording_gate d s h
      · exact h
  | textDelta d =>
      dsimp only [stepEv, handle_text_delta]
      split <;> exact h
  | responseCreated => exact h
  | responseDone =>
      dsimp only [stepEv, handle_response_done]
      split <;> split <;> exact h
  | upstreamError msg => exact h
  | genericEvent => exact h

theorem foldl_stepEv_gate (r : Resampler) (ac : Bool) :
    ∀ (evs : List Ev) (s : SessionState),
      drainGateOk s → drainGateOk (evs.foldl (stepEv r ac) s)
  | [], _, h => h
  | e :: rest, s, h =>
      foldl_stepEv_gate r ac rest (stepEv r ac s e) (stepEv_gate r ac s e h)

/-- Every reachable session state satisfies the drain-gate invariant. -/
theorem runSession_drainGateOk (r : Resampler) (ac : Bool) (evs : List Ev) :
    drainGateOk (runSession r ac evs) :=
  foldl_stepEv_gate r ac evs initialState (fun _ => rfl)

/-! ### Claim theorems: the session -/

theorem pac_eval_1020 :
    process_audio_chunk demoResampler [1, 0, 2, 0] = Except.ok [1] := by
  norm_num [process_audio_chunk, frombufferInt16, pairsToInt16, int16OfBytes,
    int16ToFloat, demoResampler, decim2, scaleClipToInt16, truncToward0]

/-- C1 (code slip): a frame buffered while the readiness gate is closed is
not forwarded once a start command succeeds: `pending_audio_chunks.clear()`
at line 370 runs before the flush block at lines 373-388, so the flush loop
runs on an already-empty backlog.  After the run nothing was sent upstream
and the backlog is empty — the buffered frame was dropped, not flushed. -/
theorem buffered_frame_dropped_on_start :
    (runSession demoResampler true
        [Ev.inbound (InMsg.audio [1, 0, 2, 0] SendOutcome.ok),
         Ev.inbound (InMsg.startRecording true)]).sent_frames = [] ∧
    (runSession demoResampler true
        [Ev.inbound (InMsg.audio [1, 0, 2, 0] SendOutcome.ok),
         Ev.inbound (InMsg.startRecording true)]).pending_audio_chunks = [] := by
  simp [runSession, stepEv, receiveMessage, onAudioFrame, onStartRecording,
    initialState, pac_eval_1020, sendBufferedChunk, finallyRelease]

/-- C2 (code slip): a recording start does not reset the shared transcript
accumulator — the reset assignment binds a variable local to
`receive_messages` (no `nonlocal` declaration for `complete_transcript`) —
so after a first turn accumulating "a", a new start and a delta "b", the
transcript visible to the handlers is "ab", not "b". -/
theorem transcript_not_reset_on_start :
    (runSession demoResampler true
        [Ev.inbound (InMsg.startRecording true), Ev.textDelta "a",
         Ev.responseDone, Ev.inbound (InMsg.startRecording true),
         Ev.textDelta "b"]).complete_transcript = "ab" ∧
      ("ab" : String) ≠ "b" := by
  decide

/-- C3 counterexample: with a non-empty transcript, a duplicate
response-done event spawns a second Notion hand-off task in the same
recording turn — two hand-offs, not one. -/
theorem duplicate_response_done_cex :
    (runSession demoResampler true
        [Ev.inbound (InMsg.startRecording true), Ev.textDelta "hi",
         Ev.responseDone, Ev.responseDone]).notion_tasks = 2 := by
  decide

/-- C3 amended: `handle_response_done` is not idempotent for the hand-off:
every invocation with auto-create on and a transcript whose stripped form
is non-empty spawns one more Notion task, so a duplicate response-done
event triggers two hand-offs per turn; only the upstream-client close is
idempotent (the second invocation finds `client` already cleared). -/
theorem duplicate_response_done_two_handoffs (s : SessionState)
    (ht : hasContent s.complete_transcript = true) (hc : s.client = true) :
    (handle_response_done true (handle_response_done true s)).notion_tasks
        = s.notion_tasks + 2 ∧
    (handle_response_done true (handle_response_done true s)).client_closes
        = s.client_closes + 1 := by
  unfold handle_response_done
  simp [ht, hc]

/-- Witness for the amended C3 at the concrete ready state with transcript
"hi". -/
theorem duplicate_response_done_witness :
    (handle_response_done true (handle_response_done true readyStateHi)).notion_tasks
        = readyStateHi.notion_tasks + 2 ∧
    (handle_response_done true (handle_response_done true readyStateHi)).client_closes
        = readyStateHi.client_closes + 1 :=
  duplicate_response_done_two_handoffs readyStateHi (by decide) (by decide)

/-- C4: with a live client, a stop command issues the commit only at a
zero in-flight count: when the bounded drain wait returns because the
event was set, the invariant forces the count to zero; on the 5-second
timeout the count is forcibly reset to zero first.  In both cases the
commit still proceeds — exactly one commit is recorded, at count zero, one
response is requested, and the loop stays alive rather than failing. -/
theorem stop_commits_only_when_drained (r : Resampler) (s : SessionState)
    (d : DrainOutcome) (halive : s.loop_alive = true) (hc : s.client = true)
    (hgate : drainGateOk s)
    (hdrain : d = DrainOutcome.drained → s.all_audio_sent = true) :
    (receiveMessage r s (InMsg.stopRecording d)).commits_at
        = s.commits_at ++ [0] ∧
    (receiveMessage r s (InMsg.stopRecording d)).responses_started
        = s.responses_started + 1 ∧
    (receiveMessage r s (InMsg.stopRecording d)).loop_alive = true := by
  unfold receiveMessage onStopRecording
  cases d with
  | drained =>
      have h0 : s.pending_audio_operations = 0 := hgate (hdrain rfl)
      simp [halive, hc, h0]
  | timedOut => simp [halive, hc]

/-- Witness for C4: a timed-out drain from the ready state records exactly
one commit, at in-flight count zero. -/
theorem stop_commits_witness :
    (receiveMessage demoResampler readyState
        (InMsg.stopRecording DrainOutcome.timedOut)).commits_at
        = readyState.commits_at ++ [0] ∧
    (receiveMessage demoResampler readyState
        (InMsg.stopRecording DrainOutcome.timedOut)).responses_started
        = readyState.responses_started + 1 ∧
    (receiveMessage demoResampler readyState
        (InMsg.stopRecording DrainOutcome.timedOut)).loop_alive = true :=
  stop_commits_only_when_drained demoResampler readyState
    DrainOutcome.timedOut (by decide) (by decide) (fun _ => rfl) (by decide)

theorem pac_eval_10 :
    process_audio_chunk demoResampler [1, 0] = Except.ok [1] := by
  norm_num [process_audio_chunk, frombufferInt16, pairsToInt16, int16OfBytes,
    int16ToFloat, demoResampler, decim2, scaleClipToInt16, truncToward0]

/-- C5 counterexample: after a successful start, a frame whose upstream
send fails terminates the receive loop (the generic exception handler logs
and breaks), so a subsequent frame is not processed: the loop is dead and
nothing was ever sent upstream — the claim that the inbound loop continues
processing subsequent frames unaffected is false. -/
theorem failed_send_breaks_loop_cex :
    (runSession demoResampler true
        [Ev.inbound (InMsg.startRecording true),
         Ev.inbound (InMsg.audio [1, 0] SendOutcome.fail),
         Ev.inbound (InMsg.audio [1, 0] SendOutcome.ok)]).loop_alive = false ∧
    (runSession demoResampler true
        [Ev.inbound (InMsg.startRecording true),
         Ev.inbound (InMsg.audio [1, 0] SendOutcome.fail),
         Ev.inbound (InMsg.audio [1, 0] SendOutcome.ok)]).sent_frames = [] := by
  simp [runSession, stepEv, receiveMessage, onAudioFrame, onStartRecording,
    initialState, pac_eval_10, finallyRelease]

/-- C5 amended: a failed audio send is logged and its in-flight slot is
released — the counter returns to its prior value, and the drain event is
set when that value is zero — but the exception then propagates to the
generic handler of the receive loop, which logs it and breaks: the loop
terminates, so subsequent frames are not processed (the session does not
continue unaffected). -/
theorem failed_send_releases_slot_but_breaks (r : Resampler)
    (s : SessionState) (frame : List ℕ) (processed : List ℤ)
    (halive : s.loop_alive = true) (hready : s.openai_ready = true)
    (hc : s.client = true)
    (hp : process_audio_chunk r frame = Except.ok processed) :
    (receiveMessage r s (InMsg.audio frame SendOutcome.fail)).pending_audio_operations
        = s.pending_audio_operations ∧
    (receiveMessage r s (InMsg.audio frame SendOutcome.fail)).errors_logged
        = s.errors_logged + 1 ∧
    (receiveMessage r s (InMsg.audio frame SendOutcome.fail)).loop_alive = false ∧
    (receiveMessage r s (InMsg.audio frame SendOutcome.fail)).sent_frames
        = s.sent_frames ∧
    (s.pending_audio_operations = 0 →
      (receiveMessage r s (InMsg.audio frame SendOutcome.fail)).all_audio_sent
        = true) := by
  unfold receiveMessage onAudioFrame finallyRelease
  refine ⟨?_, ?_, ?_, ?_, ?_⟩ <;>
    simp [halive, hready, hc, hp]

/-- Witness for the amended C5 at the ready state and the 2-byte frame
`[1, 0]`. -/
theorem failed_send_witness :
    (receiveMessage demoResampler readyState
        (InMsg.audio [1, 0] SendOutcome.fail)).pending_audio_operations
        = readyState.pending_audio_operations ∧
    (receiveMessage demoResampler readyState
        (InMsg.audio [1, 0] SendOutcome.fail)).errors_logged
        = readyState.errors_logged + 1 ∧
    (receiveMessage demoResampler readyState
        (InMsg.audio [1, 0] SendOutcome.fail)).loop_alive = false ∧
    (receiveMessage demoResampler readyState
        (InMsg.audio [1, 0] SendOutcome.fail)).sent_frames
        = readyState.sent_frames ∧
    (readyState.pending_audio_operations = 0 →
      (receiveMessage demoResampler readyState
          (InMsg.audio [1, 0] SendOutcome.fail)).all_audio_sent = true) :=
  failed_send_releases_slot_but_breaks demoResampler readyState [1, 0] [1]
    (by decide) (by decide) (by decide) pac_eval_10

/-- C9: in every execution of the session, nothing is ever enqueued on
`audio_queue` — it stays empty from the initial state on — so the
`send_audio_messages` task can make no step at all: it never forwards an
audio frame and never reaches its normal exit (which would require
dequeuing the `None` sentinel).  Every frame that reaches the upstream
goes through the direct path inside `receive_messages`. -/
theorem audio_queue_never_enqueued (r : Resampler) (autoCreate : Bool)
    (evs : List Ev) :
    (runSession r autoCreate evs).audio_queue = [] ∧
      sendAudioMessagesStep (runSession r autoCreate evs) = none := by
  have h : (runSession r autoCreate evs).audio_queue = [] := by
    unfold runSession
    rw [foldl_stepEv_audio_queue]
    rfl
  exact ⟨h, by simp [sendAudioMessagesStep, h]⟩

/-- C10: a stop command with no established upstream client (`client is
None`) is a complete no-op — the whole session state, transcript, pending
counter, gates, commit and response counts and outbound frames included,
is exactly unchanged. -/
theorem stop_without_client_noop (r : Resampler) (s : SessionState)
    (d : DrainOutcome) (hc : s.client = false) :
    receiveMessage r s (InMsg.stopRecording d) = s := by
  unfold receiveMessage onStopRecording
  split
  · simp [hc]
  · rfl

/-- Witness for C10 at the initial state. -/
theorem stop_without_client_noop_witness :
    receiveMessage demoResampler initialState
      (InMsg.stopRecording DrainOutcome.drained) = initialState :=
  stop_without_client_noop demoResampler initialState DrainOutcome.drained
    (by decide)

end Brainwave
